import Mathlib

/-!
Verification development for the ProAIM supply-chain optimisation workshop
repository (EmPajak21/ProAIM_SC_Opt_Workshop).

The repository is a set of teaching notebooks.  This file gives a shallow
embedding of the Python helper functions and model-building cells that the
notebooks contain, and proves properties about them:

* `setup_solver` — the solver-path helper copied verbatim into every
  notebook.  Side effects (the `chmod` shell commands run on Linux) are
  modelled as an explicit list of executed commands; the Python function's
  implicit fall-through (returning `None` on platforms other than Windows
  and Linux) is modelled with `Option`.
* `GenerateInstance` — the random facility-location instance generator of
  Workshop 4.  The pseudo-random stream behind `np.random.randint` is an
  explicit parameter `draw`; entry `k` of a call to `randint(0, 100, n)`
  is `draw (off + k) % 100`, faithful to "a pseudo-random integer in
  [0, 100)".
* The model-building cells — each completed cell is transcribed as a
  sequence of declarations appended to a model record, mirroring the
  mutable Pyomo `ConcreteModel` bag.
* The notebooks' control flow — a small statement language with sequencing,
  solver calls, exception handlers and parallel composition, in which each
  notebook is transcribed as a straight-line program, with an executable
  semantics for exception propagation.
* The importance-sampling normalisation of Workshop 5 over exact rational
  arithmetic, and the feasible set of the Workshop 5 stochastic program.
-/

namespace SCWorkshop

/-! ### The `setup_solver` helper (one byte-identical copy per notebook)

Each copy returns the pair (shell commands executed, returned value).
Python's `os.system("chmod +x ...")` calls in the Linux branch become the
command list; the Windows branch runs no commands; any other platform name
falls through, runs no commands and returns `None`. -/

/-- Copy of `setup_solver` in the Workshop 1a notebook (src/unnamed/part_000). -/
def setup_solver_part000 (os_name : String) :
    List String × Option (String × String × String) :=
  if os_name = "Windows" then
    ([], some ("solver/ipopt.exe", "solver/cbc.exe", "solver/ampl.mswin64/bonmin.exe"))
  else if os_name = "Linux" then
    (["chmod +x solver/ipopt", "chmod +x solver/cbc", "chmod +x solver/bonmin"],
      some ("solver/ipopt", "solver/cbc", "solver/bonmin"))
  else ([], none)

/-- Copy of `setup_solver` in the MILP-modelling notebook (src/unnamed/part_001). -/
def setup_solver_part001 (os_name : String) :
    List String × Option (String × String × String) :=
  if os_name = "Windows" then
    ([], some ("solver/ipopt.exe", "solver/cbc.exe", "solver/ampl.mswin64/bonmin.exe"))
  else if os_name = "Linux" then
    (["chmod +x solver/ipopt", "chmod +x solver/cbc", "chmod +x solver/bonmin"],
      some ("solver/ipopt", "solver/cbc", "solver/bonmin"))
  else ([], none)

/-- Copy of `setup_solver` in the completed pooling notebook (src/unnamed/part_002). -/
def setup_solver_part002 (os_name : String) :
    List String × Option (String × String × String) :=
  if os_name = "Windows" then
    ([], some ("solver/ipopt.exe", "solver/cbc.exe", "solver/ampl.mswin64/bonmin.exe"))
  else if os_name = "Linux" then
    (["chmod +x solver/ipopt", "chmod +x solver/cbc", "chmod +x solver/bonmin"],
      some ("solver/ipopt", "solver/cbc", "solver/bonmin"))
  else ([], none)

/-- Copy of `setup_solver` in src/Workshop_A/Workshop_2.ipynb. -/
def setup_solver_workshop2 (os_name : String) :
    List String × Option (String × String × String) :=
  if os_name = "Windows" then
    ([], some ("solver/ipopt.exe", "solver/cbc.exe", "solver/ampl.mswin64/bonmin.exe"))
  else if os_name = "Linux" then
    (["chmod +x solver/ipopt", "chmod +x solver/cbc", "chmod +x solver/bonmin"],
      some ("solver/ipopt", "solver/cbc", "solver/bonmin"))
  else ([], none)

/-- Copy of `setup_solver` in src/Workshop_A/Workshop_4.ipynb. -/
def setup_solver_workshop4 (os_name : String) :
    List String × Option (String × String × String) :=
  if os_name = "Windows" then
    ([], some ("solver/ipopt.exe", "solver/cbc.exe", "solver/ampl.mswin64/bonmin.exe"))
  else if os_name = "Linux" then
    (["chmod +x solver/ipopt", "chmod +x solver/cbc", "chmod +x solver/bonmin"],
      some ("solver/ipopt", "solver/cbc", "solver/bonmin"))
  else ([], none)

/-- Copy of `setup_solver` in src/Workshop_A/Workshop_5.ipynb. -/
def setup_solver_workshop5 (os_name : String) :
    List String × Option (String × String × String) :=
  if os_name = "Windows" then
    ([], some ("solver/ipopt.exe", "solver/cbc.exe", "solver/ampl.mswin64/bonmin.exe"))
  else if os_name = "Linux" then
    (["chmod +x solver/ipopt", "chmod +x solver/cbc", "chmod +x solver/bonmin"],
      some ("solver/ipopt", "solver/cbc", "solver/bonmin"))
  else ([], none)

/-- Python runtime errors relevant to the notebooks' top-level statements. -/
inductive PyError
  | typeError
deriving DecidableEq

/-- Model of the top-level unpacking assignment
"ipopt_executable, cbc_executable, bonmin_executable = setup_solver()":
unpacking a triple succeeds, unpacking the value None raises a TypeError. -/
def unpackTriple (v : Option (String × String × String)) :
    Except PyError (String × String × String) :=
  match v with
  | some t => Except.ok t
  | none => Except.error PyError.typeError

/-! ### Workshop 4: random facility-location instances (GenerateInstance) -/

/-- Result record of `GenerateInstance` (installation, service, xC, yC, xF, yF). -/
structure FLInstance where
  installation : List Int
  service : List (List Int)
  xC : List Int
  yC : List Int
  xF : List Int
  yF : List Int
deriving DecidableEq

/-- Model of `np.random.randint(0, 100, n)`: `n` pseudo-random integers in
[0, 100), read from the pseudo-random stream `draw` starting at offset
`off`; entry `i` is `draw (off + i) % 100`. -/
def randint100 (draw : Nat → Nat) (off n : Nat) : List Int :=
  (List.range n).map (fun i => ((draw (off + i) % 100 : Nat) : Int))

/-- `GenerateInstance` from src/Workshop_A/Workshop_4.ipynb: draws customer
coordinates xC, yC then facility coordinates xF, yF from consecutive
segments of the pseudo-random stream, sets every installation cost to the
literal 1500, and fills the service matrix with squared Euclidean
distances. -/
def GenerateInstance (num_facilities num_customers : Nat) (draw : Nat → Nat) :
    FLInstance :=
  let xC := randint100 draw 0 num_customers
  let yC := randint100 draw num_customers num_customers
  let xF := randint100 draw (2 * num_customers) num_facilities
  let yF := randint100 draw (2 * num_customers + num_facilities) num_facilities
  let installation : List Int := List.replicate num_facilities 1500
  let service := (List.range num_customers).map (fun i =>
    (List.range num_facilities).map (fun j =>
      (xC.getD i 0 - xF.getD j 0) ^ 2 + (yC.getD i 0 - yF.getD j 0) ^ 2))
  ⟨installation, service, xC, yC, xF, yF⟩

/-! ### Workshop 5: importance sampling over exact rational arithmetic -/

/-- Model of `np.mean` on a vector of exact rationals: sum divided by length. -/
def npMean (xs : List ℚ) : ℚ := xs.sum / xs.length

/-- Model of `importance_factors = all_probabilities / np.mean(all_probabilities)`
from src/Workshop_A/Workshop_5.ipynb: each density divided by the mean density. -/
def importance_factors (ps : List ℚ) : List ℚ :=
  ps.map (fun p => p / npMean ps)

/-! ### Workshop 5: the stochastic optimisation model's feasible set -/

/-- Number of Weibull samples in the stochastic model (`n_samples = 100`). -/
def n_samples : Nat := 100

/-- The big-M constant of the stochastic model (`M = 100`). -/
def bigM : ℚ := 100

/-- One assignment to the stochastic model's decision variables: x1, x2 and
the relaxation of the binary activation variables y (values in {0, 1}). -/
structure StochAssign where
  x1 : ℚ
  x2 : ℚ
  y : Nat → ℚ

/-- Feasible set of the stochastic model as built in the code of
src/Workshop_A/Workshop_5.ipynb: `x1 = Var(bounds=(1, 10), domain=PositiveReals)`,
`x2 = Var(domain=Reals)`, `y = Var(range(n_samples), within=Binary)`, the 100
big-M sample constraints, and `sum_y_constraint`, which requires the sum of
the y variables to be at least 99. `a i` is the i-th sampled value. -/
def stochFeasible (a : Nat → ℚ) (v : StochAssign) : Prop :=
  (0 < v.x1 ∧ 1 ≤ v.x1 ∧ v.x1 ≤ 10) ∧
  (∀ i < n_samples, v.y i = 0 ∨ v.y i = 1) ∧
  (∀ i < n_samples, a i * v.x1 + v.x2 ≥ -(bigM * (1 - v.y i))) ∧
  99 ≤ ((List.range n_samples).map v.y).sum

/-- Modelled from the spec: the stochastic program as displayed in the
notebook's markdown formulation, which requires `sum y_i >= 90` and allows
`0 <= x1 <= 10`.  Stated only to compare with `stochFeasible`, the feasible
set the code actually builds. -/
def stochFeasibleSpec (a : Nat → ℚ) (v : StochAssign) : Prop :=
  (0 ≤ v.x1 ∧ v.x1 ≤ 10) ∧
  (∀ i < n_samples, v.y i = 0 ∨ v.y i = 1) ∧
  (∀ i < n_samples, a i * v.x1 + v.x2 ≥ -(bigM * (1 - v.y i))) ∧
  90 ≤ ((List.range n_samples).map v.y).sum

/-! ### Model declarations: variables, objectives, constraints

A Pyomo ConcreteModel is a mutable bag of declarations.  We transcribe each
completed model-building cell as a sequence of append operations on a model
record, in source order.  Indexed `Var` declarations record the number of
scalar components they create (the product of the index-set sizes at the
point of declaration).  Variable domains record the Pyomo virtual set named
in the declaration; the inductive also carries the integer domains Pyomo
offers, so that "no variable has a general integer domain" is a statement
about an actual alternative. -/

/-- Pyomo variable domains used (or usable) by the notebooks. -/
inductive VarDomain
  | Reals
  | PositiveReals
  | NonNegativeReals
  | Binary
  | Integers
  | NonNegativeIntegers
deriving DecidableEq

/-- Whether a domain is a continuous real domain. -/
def VarDomain.isContinuousReal : VarDomain → Bool
  | VarDomain.Reals => true
  | VarDomain.PositiveReals => true
  | VarDomain.NonNegativeReals => true
  | _ => false

/-- Objective sense. -/
inductive Sense
  | minimize
  | maximize
deriving DecidableEq

/-- One `Var(...)` declaration: attribute name, number of scalar components,
domain, and optional bounds. -/
structure VarDecl where
  vname : String
  count : Nat
  domain : VarDomain
  lo : Option ℚ
  hi : Option ℚ
deriving DecidableEq

/-- One `Objective(...)` declaration. -/
structure ObjDecl where
  oname : String
  sense : Sense
deriving DecidableEq

/-- A ConcreteModel as a bag of declarations, in declaration order. -/
structure PModel where
  vars : List VarDecl
  objectives : List ObjDecl
  numConstraints : Nat
deriving DecidableEq

/-- A freshly created ConcreteModel. -/
def PModel.empty : PModel := ⟨[], [], 0⟩

/-- Effect of a `Var(...)` assignment on the model bag. -/
def PModel.addVar (m : PModel) (v : VarDecl) : PModel :=
  ⟨m.vars ++ [v], m.objectives, m.numConstraints⟩

/-- Effect of an `Objective(...)` assignment on the model bag. -/
def PModel.addObjective (m : PModel) (o : ObjDecl) : PModel :=
  ⟨m.vars, m.objectives ++ [o], m.numConstraints⟩

/-- Effect of declaring `k` scalar constraints on the model bag. -/
def PModel.addConstraints (m : PModel) (k : Nat) : PModel :=
  ⟨m.vars, m.objectives, m.numConstraints + k⟩

/-! #### The completed models, cell by cell.

The data sizes come from the literals in the notebooks: the pooling cells
have 2 local suppliers, 2 remote suppliers and 2 customers; Workshop 4's
solved instance is `GenerateInstance(5, 20)` (5 facilities, 20 customers);
Workshop 5 has 100 Weibull samples, then 100 + 10 samples after the tail
draws are appended. -/

/-- Workshop 1a (src/unnamed/part_000), section 2a: the completed
unconstrained model minimising x1^2 + x2^2. -/
def ws1a_unconstrained_model : PModel :=
  (((PModel.empty.addVar
    ⟨"x1", 1, VarDomain.Reals, none, none⟩).addVar
    ⟨"x2", 1, VarDomain.Reals, none, none⟩).addObjective
    ⟨"obj", Sense.minimize⟩)

/-- Completed pooling notebook (src/unnamed/part_002), option 1: the LP
blending model over 2 local suppliers and 2 customers, with the profit
objective, 2 demand constraints and 2 quality constraints. -/
def pooling_lp_model : PModel :=
  ((((PModel.empty.addVar
    ⟨"x", 2 * 2, VarDomain.NonNegativeReals, none, none⟩).addObjective
    ⟨"profit", Sense.maximize⟩).addConstraints 2).addConstraints 2)

/-- Completed pooling notebook (src/unnamed/part_002), option 2: the MINLP
pooling model with flows x (local to customer), y (pool to customer),
z (remote to pool), the pool composition f with bounds (0.03, 0.051), the
profit objective, 2 customer-demand constraints, the pool balance, the pool
quality constraint and 2 customer quality constraints. -/
def pooling_minlp_model : PModel :=
  (((((((((PModel.empty.addVar
    ⟨"x", 2 * 2, VarDomain.NonNegativeReals, none, none⟩).addVar
    ⟨"y", 2, VarDomain.NonNegativeReals, none, none⟩).addVar
    ⟨"z", 2, VarDomain.NonNegativeReals, none, none⟩).addVar
    ⟨"f", 1, VarDomain.NonNegativeReals, some (3 / 100), some (51 / 1000)⟩).addObjective
    ⟨"profit", Sense.maximize⟩).addConstraints 2).addConstraints 1).addConstraints 1).addConstraints 2)

/-- Workshop 4: `CreateFacilityLocationModel` for nf facilities and nc
customers: binary x over facilities, binary y over customers × facilities,
the minimise objective, nc ChooseOneFacility constraints and nc * nf
ServeIfOpen constraints. -/
def CreateFacilityLocationModel (nf nc : Nat) : PModel :=
  ((((PModel.empty.addVar
    ⟨"x", nf, VarDomain.Binary, none, none⟩).addVar
    ⟨"y", nc * nf, VarDomain.Binary, none, none⟩).addObjective
    ⟨"obj", Sense.minimize⟩).addConstraints nc).addConstraints (nc * nf)

/-- Workshop 5, section 2b: the stochastic model with x1 in (1, 10) over
PositiveReals, x2 over Reals, 100 binary y variables, the minimise
objective, 100 big-M sample constraints and the sum_y constraint. -/
def ws5_stochastic_model : PModel :=
  (((((PModel.empty.addVar
    ⟨"x1", 1, VarDomain.PositiveReals, some 1, some 10⟩).addVar
    ⟨"x2", 1, VarDomain.Reals, none, none⟩).addVar
    ⟨"y", 100, VarDomain.Binary, none, none⟩).addObjective
    ⟨"objective_rule", Sense.minimize⟩).addConstraints 100).addConstraints 1

/-- Workshop 5, section 2d: the importance-sampling model over the 110
samples (100 random plus 10 tail), with binary y additionally carrying
bounds (0, 1). -/
def ws5_importance_model : PModel :=
  (((((PModel.empty.addVar
    ⟨"x1", 1, VarDomain.PositiveReals, some 1, some 10⟩).addVar
    ⟨"x2", 1, VarDomain.Reals, none, none⟩).addVar
    ⟨"y", 110, VarDomain.Binary, some 0, some 1⟩).addObjective
    ⟨"objective_rule", Sense.minimize⟩).addConstraints 110).addConstraints 1

/-- Workshop 5, section 3: the robust optimisation model with x1, x2, the
minimise objective and one constraint. -/
def ws5_robust_model : PModel :=
  (((PModel.empty.addVar
    ⟨"x1", 1, VarDomain.PositiveReals, some 1, some 10⟩).addVar
    ⟨"x2", 1, VarDomain.Reals, none, none⟩).addObjective
    ⟨"obj", Sense.minimize⟩).addConstraints 1

/-- Every model that a notebook cell group fully constructs (the exercise
cells of Workshop 1a sections 2b, 2c, 3, of the MILP notebook and of
src/Workshop_A/Workshop_2.ipynb leave the objective or the model creation as
a fill-in-the-blank and never complete a model). -/
def completedModels : List PModel :=
  [ws1a_unconstrained_model, pooling_lp_model, pooling_minlp_model,
    CreateFacilityLocationModel 5 20, ws5_stochastic_model,
    ws5_importance_model, ws5_robust_model]

/-! #### Every `Var(...)` declaration in the source, including those in
exercise cells whose models are never completed. -/

/-- Var declarations of the incomplete exercise cells: Workshop 1a sections
2b and 2c declare x1, x2 over Reals, section 3 declares x1, x2 over
PositiveReals; the MILP notebook declares binary y1, y2; the two
initialize_model functions of src/Workshop_A/Workshop_2.ipynb declare the
same flow variables as the completed pooling notebook. -/
def exerciseVarDecls : List VarDecl :=
  [⟨"x1", 1, VarDomain.Reals, none, none⟩,
    ⟨"x2", 1, VarDomain.Reals, none, none⟩,
    ⟨"x1", 1, VarDomain.Reals, none, none⟩,
    ⟨"x2", 1, VarDomain.Reals, none, none⟩,
    ⟨"x1", 1, VarDomain.PositiveReals, none, none⟩,
    ⟨"x2", 1, VarDomain.PositiveReals, none, none⟩,
    ⟨"y1", 1, VarDomain.Binary, none, none⟩,
    ⟨"y2", 1, VarDomain.Binary, none, none⟩,
    ⟨"x", 2 * 2, VarDomain.NonNegativeReals, none, none⟩,
    ⟨"x", 2 * 2, VarDomain.NonNegativeReals, none, none⟩,
    ⟨"y", 2, VarDomain.NonNegativeReals, none, none⟩,
    ⟨"z", 2, VarDomain.NonNegativeReals, none, none⟩,
    ⟨"f", 1, VarDomain.NonNegativeReals, some (3 / 100), some (51 / 1000)⟩]

/-- All Var declarations anywhere in the source. -/
def allVarDecls : List VarDecl :=
  (completedModels.map PModel.vars).flatten ++ exerciseVarDecls

/-! ### Notebook control flow: solver calls, exception handlers, parallelism

Each notebook is a linear script.  We transcribe it into a small statement
language that also offers an exception handler (Python's try/except) and a
parallel composition, so that "no solve call is enclosed in a handler" and
"no two solves run in parallel" are statements about actual alternatives.
The semantics `exec` runs a program against a solver behaviour: an
exception raised by a solve call propagates outwards unless an enclosing
handler catches it. -/

/-- One textual `solve` invocation: the file it appears in, the solver it
names, and the Python keyword arguments passed to the call. -/
structure SolveSite where
  file : String
  solverName : String
  keywords : List String
deriving DecidableEq

/-- Statements of the notebooks' top-level scripts. -/
inductive Stmt
  | other
  | solveCall (s : SolveSite)
  | seq (a b : Stmt)
  | tryCatch (body handler : Stmt)
  | parallel (a b : Stmt)
deriving DecidableEq

/-- What the external solver does at each call site. -/
def SolverBehavior := SolveSite → Except String Unit

/-- Run a program: sequencing stops at the first uncaught exception, a
handler catches any exception of its body, parallel composition joins both
sides (both must finish). -/
def exec (b : SolverBehavior) : Stmt → Except String Unit
  | Stmt.other => Except.ok ()
  | Stmt.solveCall s => b s
  | Stmt.seq a c =>
      match exec b a with
      | Except.ok () => exec b c
      | Except.error e => Except.error e
  | Stmt.tryCatch body handler =>
      match exec b body with
      | Except.ok () => Except.ok ()
      | Except.error _ => exec b handler
  | Stmt.parallel a c =>
      match exec b a with
      | Except.ok () => exec b c
      | Except.error e => Except.error e

/-- All solve call sites of a program, in textual order. -/
def Stmt.solveSites : Stmt → List SolveSite
  | Stmt.other => []
  | Stmt.solveCall s => [s]
  | Stmt.seq a c => a.solveSites ++ c.solveSites
  | Stmt.tryCatch body handler => body.solveSites ++ handler.solveSites
  | Stmt.parallel a c => a.solveSites ++ c.solveSites

/-- Whether a program contains any exception handler. -/
def Stmt.hasTryCatch : Stmt → Bool
  | Stmt.other => false
  | Stmt.solveCall _ => false
  | Stmt.seq a c => a.hasTryCatch || c.hasTryCatch
  | Stmt.tryCatch _ _ => true
  | Stmt.parallel a c => a.hasTryCatch || c.hasTryCatch

/-- Whether a program contains any parallel composition. -/
def Stmt.hasParallel : Stmt → Bool
  | Stmt.other => false
  | Stmt.solveCall _ => false
  | Stmt.seq a c => a.hasParallel || c.hasParallel
  | Stmt.tryCatch body handler => body.hasParallel || handler.hasParallel
  | Stmt.parallel _ _ => true

/-- Whether a program contains any solve call. -/
def Stmt.containsSolve : Stmt → Bool
  | Stmt.other => false
  | Stmt.solveCall _ => true
  | Stmt.seq a c => a.containsSolve || c.containsSolve
  | Stmt.tryCatch body handler => body.containsSolve || handler.containsSolve
  | Stmt.parallel a c => a.containsSolve || c.containsSolve

/-! #### The solve call sites of the repository, transcribed from source. -/

/-- Keyword arguments of the PyROS solve call in Workshop 5 (the only solve
call in the repository that passes keyword arguments). -/
def pyrosKeywords : List String :=
  ["model", "first_stage_variables", "second_stage_variables",
    "uncertain_params", "uncertainty_set", "local_solver", "global_solver",
    "objective_focus", "solve_master_globally", "load_solution"]

/-- The solve call sites of src/unnamed/part_000 (three ipopt solves). -/
def part000_sites : List SolveSite :=
  [⟨"src/unnamed/part_000", "ipopt", []⟩,
    ⟨"src/unnamed/part_000", "ipopt", []⟩,
    ⟨"src/unnamed/part_000", "ipopt", []⟩]

/-- The solve call site of src/unnamed/part_001 (one cbc solve). -/
def part001_sites : List SolveSite :=
  [⟨"src/unnamed/part_001", "cbc", []⟩]

/-- The solve call sites of src/unnamed/part_002 (cbc, then bonmin). -/
def part002_sites : List SolveSite :=
  [⟨"src/unnamed/part_002", "cbc", []⟩,
    ⟨"src/unnamed/part_002", "bonmin", []⟩]

/-- The solve call sites of src/Workshop_A/Workshop_2.ipynb (cbc in
solve_model, then bonmin). -/
def workshop2_sites : List SolveSite :=
  [⟨"src/Workshop_A/Workshop_2.ipynb", "cbc", []⟩,
    ⟨"src/Workshop_A/Workshop_2.ipynb", "bonmin", []⟩]

/-- The solve call site of src/Workshop_A/Workshop_4.ipynb (one cbc solve). -/
def workshop4_sites : List SolveSite :=
  [⟨"src/Workshop_A/Workshop_4.ipynb", "cbc", []⟩]

/-- The solve call sites of src/Workshop_A/Workshop_5.ipynb (bonmin, cbc,
then PyROS with its keyword arguments). -/
def workshop5_sites : List SolveSite :=
  [⟨"src/Workshop_A/Workshop_5.ipynb", "bonmin", []⟩,
    ⟨"src/Workshop_A/Workshop_5.ipynb", "cbc", []⟩,
    ⟨"src/Workshop_A/Workshop_5.ipynb", "pyros", pyrosKeywords⟩]

/-- Transcribe a linear notebook: its cells in order, each solve call a
solveCall statement and everything else an `other` statement. -/
def linearProgram (sites : List SolveSite) : Stmt :=
  sites.foldr (fun s acc => Stmt.seq Stmt.other (Stmt.seq (Stmt.solveCall s) acc))
    Stmt.other

/-- The six notebooks as straight-line programs. -/
def notebookPrograms : List Stmt :=
  [linearProgram part000_sites, linearProgram part001_sites,
    linearProgram part002_sites, linearProgram workshop2_sites,
    linearProgram workshop4_sites, linearProgram workshop5_sites]

/-- Keyword names that would impose a solver time limit in Pyomo solve
interfaces. -/
def timeLimitKeywords : List String :=
  ["timeout", "timelimit", "time_limit", "max_time", "max_cpu_time", "seconds"]

/-! ### Concrete evaluation points -/

/-- A pseudo-sample stream where every sampled value is 1. -/
def onesSample : Nat → ℚ := fun _ => 1

/-- The assignment x1 = 1, x2 = 0, every y equal to 1 (all constraints
activated). -/
def allOnes : StochAssign := ⟨1, 0, fun _ => 1⟩

/-- The assignment x1 = 0, x2 = 0, exactly 90 of the y set to 1: feasible
for the formulation the notebook displays but not for the model the code
builds. -/
def specOnlyPoint : StochAssign := ⟨0, 0, fun i => if i < 90 then 1 else 0⟩

/-! ## Theorems -/

/-- C1: for every platform name, setup_solver returns the triple
("solver/ipopt.exe", "solver/cbc.exe", "solver/ampl.mswin64/bonmin.exe")
when the platform is "Windows" and ("solver/ipopt", "solver/cbc",
"solver/bonmin") when the platform is "Linux"; being a function of the
platform name alone, the choice depends only on it. -/
theorem setup_solver_platform_paths (os_name : String) :
    (os_name = "Windows" →
      (setup_solver_part000 os_name).2 =
        some ("solver/ipopt.exe", "solver/cbc.exe", "solver/ampl.mswin64/bonmin.exe")) ∧
    (os_name = "Linux" →
      (setup_solver_part000 os_name).2 =
        some ("solver/ipopt", "solver/cbc", "solver/bonmin")) := by
  constructor <;> intro h <;> subst h <;> rfl

/-- Witness for C1 at the two concrete platform names. -/
theorem setup_solver_platform_paths_witness :
    (setup_solver_part000 "Windows").2 =
      some ("solver/ipopt.exe", "solver/cbc.exe", "solver/ampl.mswin64/bonmin.exe") ∧
    (setup_solver_part000 "Linux").2 =
      some ("solver/ipopt", "solver/cbc", "solver/bonmin") :=
  ⟨(setup_solver_platform_paths "Windows").1 rfl,
    (setup_solver_platform_paths "Linux").2 rfl⟩

/-- C3: the six copies of setup_solver pasted into the notebooks are
extensionally equal: on every platform name they return the same triple of
solver paths and run the same chmod commands. -/
theorem setup_solver_copies_extensionally_equal (os_name : String) :
    setup_solver_part001 os_name = setup_solver_part000 os_name ∧
    setup_solver_part002 os_name = setup_solver_part000 os_name ∧
    setup_solver_workshop2 os_name = setup_solver_part000 os_name ∧
    setup_solver_workshop4 os_name = setup_solver_part000 os_name ∧
    setup_solver_workshop5 os_name = setup_solver_part000 os_name :=
  ⟨rfl, rfl, rfl, rfl, rfl⟩

/-- C8: on every platform name other than "Windows" and "Linux",
setup_solver returns None, so the top-level unpacking assignment raises a
TypeError; and setup_solver returns a triple exactly when the platform is
"Windows" or "Linux". -/
theorem setup_solver_none_on_other_platforms (os_name : String) :
    (os_name ≠ "Windows" → os_name ≠ "Linux" →
      (setup_solver_part000 os_name).2 = none ∧
      unpackTriple (setup_solver_part000 os_name).2 =
        Except.error PyError.typeError) ∧
    ((∃ t, (setup_solver_part000 os_name).2 = some t) ↔
      os_name = "Windows" ∨ os_name = "Linux") := by
  unfold setup_solver_part000
  by_cases hw : os_name = "Windows" <;> by_cases hl : os_name = "Linux" <;>
    simp [hw, hl, unpackTriple]

/-- Witness for C8 at the concrete platform name "Darwin". -/
theorem setup_solver_none_on_other_platforms_witness :
    (setup_solver_part000 "Darwin").2 = none ∧
    unpackTriple (setup_solver_part000 "Darwin").2 =
      Except.error PyError.typeError :=
  (setup_solver_none_on_other_platforms "Darwin").1 (by decide) (by decide)

/-- Entry `i` of a list built by mapping `f` over `List.range n` is `f i`. -/
theorem getD_map_range {α : Type} (f : Nat → α) {n i : Nat} (h : i < n) (d : α) :
    ((List.range n).map f).getD i d = f i := by
  simp [List.getD_eq_getElem?_getD, List.getElem?_map, List.getElem?_range, h]

/-- C2: GenerateInstance returns num_facilities copies of the literal 1500
as installation costs, coordinate lists of the stated lengths with entries
between 0 and 99, and a service matrix whose (i, j) entry is the squared
Euclidean distance between customer i and facility j; every service cost is
a nonnegative integer. -/
theorem GenerateInstance_spec (nf nc : Nat) (draw : Nat → Nat) :
    (GenerateInstance nf nc draw).installation = List.replicate nf 1500 ∧
    (GenerateInstance nf nc draw).xC.length = nc ∧
    (GenerateInstance nf nc draw).yC.length = nc ∧
    (GenerateInstance nf nc draw).xF.length = nf ∧
    (GenerateInstance nf nc draw).yF.length = nf ∧
    (∀ v ∈ (GenerateInstance nf nc draw).xC, 0 ≤ v ∧ v ≤ 99) ∧
    (∀ v ∈ (GenerateInstance nf nc draw).yC, 0 ≤ v ∧ v ≤ 99) ∧
    (∀ v ∈ (GenerateInstance nf nc draw).xF, 0 ≤ v ∧ v ≤ 99) ∧
    (∀ v ∈ (GenerateInstance nf nc draw).yF, 0 ≤ v ∧ v ≤ 99) ∧
    (GenerateInstance nf nc draw).service.length = nc ∧
    (∀ row ∈ (GenerateInstance nf nc draw).service, row.length = nf) ∧
    (∀ i j, i < nc → j < nf →
      ((GenerateInstance nf nc draw).service.getD i []).getD j 0 =
        ((GenerateInstance nf nc draw).xC.getD i 0 -
          (GenerateInstance nf nc draw).xF.getD j 0) ^ 2 +
        ((GenerateInstance nf nc draw).yC.getD i 0 -
          (GenerateInstance nf nc draw).yF.getD j 0) ^ 2) ∧
    (∀ row ∈ (GenerateInstance nf nc draw).service, ∀ v ∈ row, 0 ≤ v) := by
  have hbound : ∀ (off n : Nat), ∀ v ∈ randint100 draw off n, 0 ≤ v ∧ v ≤ 99 := by
    intro off n v hv
    simp only [randint100, List.mem_map, List.mem_range] at hv
    obtain ⟨i, _, rfl⟩ := hv
    refine ⟨Int.natCast_nonneg _, ?_⟩
    have h100 : draw (off + i) % 100 < 100 := Nat.mod_lt _ (by norm_num)
    exact_mod_cast Nat.le_of_lt_succ h100
  refine ⟨rfl, ?_, ?_, ?_, ?_, hbound 0 nc, hbound nc nc,
    hbound (2 * nc) nf, hbound (2 * nc + nf) nf, ?_, ?_, ?_, ?_⟩
  · simp [GenerateInstance, randint100]
  · simp [GenerateInstance, randint100]
  · simp [GenerateInstance, randint100]
  · simp [GenerateInstance, randint100]
  · simp [GenerateInstance]
  · intro row hrow
    simp only [GenerateInstance, List.mem_map, List.mem_range] at hrow
    obtain ⟨i, _, rfl⟩ := hrow
    simp
  · intro i j hi hj
    show ((GenerateInstance nf nc draw).service.getD i []).getD j 0 = _
    rw [show (GenerateInstance nf nc draw).service =
      (List.range nc).map (fun i => (List.range nf).map (fun j =>
        ((GenerateInstance nf nc draw).xC.getD i 0 -
          (GenerateInstance nf nc draw).xF.getD j 0) ^ 2 +
        ((GenerateInstance nf nc draw).yC.getD i 0 -
          (GenerateInstance nf nc draw).yF.getD j 0) ^ 2)) from rfl]
    rw [getD_map_range _ hi, getD_map_range _ hj]
  · intro row hrow v hv
    simp only [GenerateInstance, List.mem_map, List.mem_range] at hrow
    obtain ⟨i, _, rfl⟩ := hrow
    simp only [List.mem_map, List.mem_range] at hv
    obtain ⟨j, _, rfl⟩ := hv
    positivity

/-- Witness for C2 at nf = 2, nc = 1 with the identity pseudo-random
stream, checking the service-matrix formula at customer 0 and facility 1. -/
theorem GenerateInstance_spec_witness :
    ((GenerateInstance 2 1 id).service.getD 0 []).getD 1 0 =
      ((GenerateInstance 2 1 id).xC.getD 0 0 -
        (GenerateInstance 2 1 id).xF.getD 1 0) ^ 2 +
      ((GenerateInstance 2 1 id).yC.getD 0 0 -
        (GenerateInstance 2 1 id).yF.getD 1 0) ^ 2 ∧
    (GenerateInstance 2 1 id).installation = List.replicate 2 1500 := by
  obtain ⟨h1, _, _, _, _, _, _, _, _, _, _, h12, _⟩ :=
    GenerateInstance_spec 2 1 id
  exact ⟨h12 0 1 (by decide) (by decide), h1⟩

/-- C5: every model that a notebook cell group fully constructs carries
exactly one objective (never zero, never more than one), together with a
nonempty set of decision variables. -/
theorem completedModels_one_objective (m : PModel) (hm : m ∈ completedModels) :
    m.objectives.length = 1 ∧ m.vars ≠ [] := by
  fin_cases hm <;> decide

/-- Witness for C5 at the Workshop 5 stochastic model. -/
theorem completedModels_one_objective_witness :
    ws5_stochastic_model.objectives.length = 1 ∧
    ws5_stochastic_model.vars ≠ [] :=
  completedModels_one_objective ws5_stochastic_model (by decide)

/-- C6: every decision variable declared anywhere in the source has either
a continuous real domain (Reals, PositiveReals, NonNegativeReals) or the
Binary domain; none has a general integer domain. -/
theorem allVarDecls_no_integer_domain (v : VarDecl) (hv : v ∈ allVarDecls) :
    (v.domain.isContinuousReal = true ∨ v.domain = VarDomain.Binary) ∧
    v.domain ≠ VarDomain.Integers ∧
    v.domain ≠ VarDomain.NonNegativeIntegers := by
  fin_cases hv <;> decide

/-- Witness for C6 at the pool-composition variable f of the MINLP pooling
model. -/
theorem allVarDecls_no_integer_domain_witness :
    ((⟨"f", 1, VarDomain.NonNegativeReals, some (3 / 100), some (51 / 1000)⟩ :
        VarDecl).domain.isContinuousReal = true ∨
      (⟨"f", 1, VarDomain.NonNegativeReals, some (3 / 100), some (51 / 1000)⟩ :
        VarDecl).domain = VarDomain.Binary) ∧
    (⟨"f", 1, VarDomain.NonNegativeReals, some (3 / 100), some (51 / 1000)⟩ :
        VarDecl).domain ≠ VarDomain.Integers ∧
    (⟨"f", 1, VarDomain.NonNegativeReals, some (3 / 100), some (51 / 1000)⟩ :
        VarDecl).domain ≠ VarDomain.NonNegativeIntegers :=
  allVarDecls_no_integer_domain _
    (List.mem_append_right _ (by simp [exerciseVarDecls]))

/-- A program with no solve call always finishes normally. -/
theorem exec_ok_of_no_solve (b : SolverBehavior) (p : Stmt)
    (h : p.containsSolve = false) : exec b p = Except.ok () := by
  induction p with
  | other => rfl
  | solveCall s => simp [Stmt.containsSolve] at h
  | seq a c iha ihc =>
      simp only [Stmt.containsSolve, Bool.or_eq_false_iff] at h
      simp [exec, iha h.1, ihc h.2]
  | tryCatch body handler ihb ihh =>
      simp only [Stmt.containsSolve, Bool.or_eq_false_iff] at h
      simp [exec, ihb h.1]
  | parallel a c iha ihc =>
      simp only [Stmt.containsSolve, Bool.or_eq_false_iff] at h
      simp [exec, iha h.1, ihc h.2]

/-- In a program with no exception handler, a solver exception raised at
every call propagates to the top level. -/
theorem exec_error_propagates (b : SolverBehavior) (e : String)
    (hb : ∀ s, b s = Except.error e) (p : Stmt)
    (ht : p.hasTryCatch = false) (hs : p.containsSolve = true) :
    exec b p = Except.error e := by
  induction p with
  | other => simp [Stmt.containsSolve] at hs
  | solveCall s => simp [exec, hb]
  | seq a c iha ihc =>
      simp only [Stmt.hasTryCatch, Bool.or_eq_false_iff] at ht
      simp only [Stmt.containsSolve, Bool.or_eq_true] at hs
      by_cases ha : a.containsSolve
      · simp [exec, iha ht.1 ha]
      · have hac : a.containsSolve = false := by simpa using ha
        have hcs : c.containsSolve = true := by tauto
        simp [exec, exec_ok_of_no_solve b a hac, ihc ht.2 hcs]
  | tryCatch body handler ihb ihh => simp [Stmt.hasTryCatch] at ht
  | parallel a c iha ihc =>
      simp only [Stmt.hasTryCatch, Bool.or_eq_false_iff] at ht
      simp only [Stmt.containsSolve, Bool.or_eq_true] at hs
      by_cases ha : a.containsSolve
      · simp [exec, iha ht.1 ha]
      · have hac : a.containsSolve = false := by simpa using ha
        have hcs : c.containsSolve = true := by tauto
        simp [exec, exec_ok_of_no_solve b a hac, ihc ht.2 hcs]

/-- C4: no notebook wraps any solve call in an exception handler; every
notebook performs at least one solve call; and when the solver or
modelling library raises at the solve calls, the exception propagates
uncaught to the top level of the notebook run. -/
theorem notebooks_solve_uncaught (p : Stmt) (hp : p ∈ notebookPrograms) :
    p.hasTryCatch = false ∧ p.containsSolve = true ∧
    ∀ (b : SolverBehavior) (e : String), (∀ s, b s = Except.error e) →
      exec b p = Except.error e := by
  have h1 : p.hasTryCatch = false := by fin_cases hp <;> decide
  have h2 : p.containsSolve = true := by fin_cases hp <;> decide
  exact ⟨h1, h2, fun b e hb => exec_error_propagates b e hb p h1 h2⟩

/-- Witness for C4: running the Workshop 4 notebook against a solver that
raises makes the whole run end in that uncaught exception. -/
theorem notebooks_solve_uncaught_witness :
    exec (fun _ => Except.error "infeasible") (linearProgram workshop4_sites) =
      Except.error "infeasible" :=
  (notebooks_solve_uncaught (linearProgram workshop4_sites) (by decide)).2.2
    (fun _ => Except.error "infeasible") "infeasible" (fun _ => rfl)

/-- C7: no notebook composes two statements in parallel (all solver calls
are reached one after another in a single blocking sequence), and no solve
call passes any time-limit keyword argument. -/
theorem notebooks_sequential_no_timeout (p : Stmt) (hp : p ∈ notebookPrograms) :
    p.hasParallel = false ∧
    ∀ s ∈ p.solveSites, ∀ k ∈ s.keywords, k ∉ timeLimitKeywords := by
  fin_cases hp <;> refine ⟨by decide, by decide⟩

/-- Witness for C7 at the Workshop 5 notebook, whose PyROS call is the only
solve call passing keyword arguments. -/
theorem notebooks_sequential_no_timeout_witness :
    (linearProgram workshop5_sites).hasParallel = false ∧
    "load_solution" ∉ timeLimitKeywords := by
  have h := notebooks_sequential_no_timeout (linearProgram workshop5_sites)
    (by decide)
  refine ⟨h.1, ?_⟩
  exact h.2 ⟨"src/Workshop_A/Workshop_5.ipynb", "pyros", pyrosKeywords⟩
    (by decide) "load_solution" (by decide)

/-- Dividing every entry of a list by a constant divides its sum by that
constant. -/
theorem list_sum_map_div (l : List ℚ) (c : ℚ) :
    (l.map (fun p => p / c)).sum = l.sum / c := by
  induction l with
  | nil => simp
  | cons a t ih => simp [ih, add_div]

/-- C9: for a non-empty sample list whose probability densities have a
nonzero mean, the importance factors (each density divided by the mean
density) have mean exactly 1; equivalently, their sum equals the number of
samples. -/
theorem importance_factors_mean_one (ps : List ℚ) (hne : ps ≠ [])
    (hm : npMean ps ≠ 0) :
    npMean (importance_factors ps) = 1 ∧
    (importance_factors ps).sum = (ps.length : ℚ) := by
  have hlen0 : ps.length ≠ 0 := fun h => hne (List.length_eq_zero.mp h)
  have hlen : (ps.length : ℚ) ≠ 0 := Nat.cast_ne_zero.mpr hlen0
  have hsum : ps.sum ≠ 0 := by
    intro h
    exact hm (by simp [npMean, h])
  have hfac : (importance_factors ps).sum = (ps.length : ℚ) := by
    rw [importance_factors, list_sum_map_div, npMean]
    field_simp
  have hlen_map : (importance_factors ps).length = ps.length := by
    simp [importance_factors]
  have hmean : npMean (importance_factors ps) =
      (importance_factors ps).sum / (ps.length : ℚ) := by
    rw [npMean, hlen_map]
  exact ⟨by rw [hmean, hfac, div_self hlen], hfac⟩

/-- Witness for C9 at the density list [1, 3], whose mean is 2 and whose
importance factors 1/2 and 3/2 have mean 1. -/
theorem importance_factors_mean_one_witness :
    npMean (importance_factors [(1 : ℚ), 3]) = 1 :=
  (importance_factors_mean_one [(1 : ℚ), 3] (by simp)
    (by norm_num [npMean])).1

/-- A list of values that are each 0 or 1 sums to at most the list length
minus the number of zero entries. -/
theorem sum_le_length_sub_zeros (y : Nat → ℚ) (l : List Nat)
    (hb : ∀ i ∈ l, y i = 0 ∨ y i = 1) :
    (l.map y).sum ≤ (l.length : ℚ) -
      ((l.filter (fun i => decide (y i = 0))).length : ℚ) := by
  induction l with
  | nil => simp
  | cons a t ih =>
      have hbt : ∀ i ∈ t, y i = 0 ∨ y i = 1 :=
        fun i hi => hb i (List.mem_cons_of_mem a hi)
      have iht := ih hbt
      rcases hb a (List.mem_cons_self a t) with h0 | h1
      · simp [List.filter_cons, h0]
        linarith
      · simp [List.filter_cons, h1]
        linarith

/-- Summing the indicator of i < k over the first n naturals gives k. -/
theorem sum_indicator_range (k n : Nat) (hk : k ≤ n) :
    ((List.range n).map (fun i => if i < k then (1 : ℚ) else 0)).sum = k := by
  induction n with
  | zero =>
      have hk0 : k = 0 := Nat.le_zero.mp hk
      subst hk0
      simp
  | succ n ih =>
      rw [List.range_succ, List.map_append, List.sum_append]
      rcases hk.lt_or_eq with hlt | rfl
      · have hks : k ≤ n := Nat.lt_succ_iff.mp hlt
        rw [ih hks]
        have hnk : ¬ (n < k) := by omega
        simp [hnk]
      · have hmap : (List.range n).map (fun i => if i < n + 1 then (1 : ℚ) else 0)
            = (List.range n).map (fun _ => (1 : ℚ)) := by
          apply List.map_congr_left
          intro i hi
          simp [Nat.lt_succ_of_lt (List.mem_range.mp hi)]
        rw [hmap]
        simp

/-- C10: every assignment feasible for the stochastic model that the
Workshop 5 code builds activates at least 99 of the 100 sampled big-M
constraints (so at most one sample constraint is deactivated) and has
1 <= x1 <= 10; such an assignment is also feasible for the displayed
formulation (sum y >= 90, 0 <= x1 <= 10), and for every sample stream some
assignment is feasible for the displayed formulation but not for the coded
model, so the coded model is strictly tighter. -/
theorem ws5_stochastic_tighter (a : Nat → ℚ) (v : StochAssign)
    (h : stochFeasible a v) :
    (99 ≤ ((List.range n_samples).map v.y).sum ∧
      ((List.range n_samples).filter (fun i => decide (v.y i = 0))).length ≤ 1 ∧
      1 ≤ v.x1 ∧ v.x1 ≤ 10 ∧
      stochFeasibleSpec a v) ∧
    ∃ w : StochAssign, stochFeasibleSpec a w ∧ ¬ stochFeasible a w := by
  obtain ⟨⟨hpos, h1, h10⟩, hbin, hcon, hsum⟩ := h
  constructor
  · have hb' : ∀ i ∈ List.range n_samples, v.y i = 0 ∨ v.y i = 1 :=
      fun i hi => hbin i (List.mem_range.mp hi)
    have hle := sum_le_length_sub_zeros v.y (List.range n_samples) hb'
    have hlenr : ((List.range n_samples).length : ℚ) = 100 := by
      simp [n_samples]
    have hz1 : (((List.range n_samples).filter
        (fun i => decide (v.y i = 0))).length : ℚ) ≤ 1 := by
      rw [hlenr] at hle
      linarith
    refine ⟨hsum, by exact_mod_cast hz1, h1, h10,
      ⟨⟨le_of_lt hpos, h10⟩, hbin, hcon, by linarith⟩⟩
  · refine ⟨specOnlyPoint, ⟨⟨le_refl 0, by norm_num [specOnlyPoint]⟩, ?_, ?_, ?_⟩, ?_⟩
    · intro i _
      by_cases hi : i < 90 <;> simp [specOnlyPoint, hi]
    · intro i _
      by_cases hi : i < 90 <;> simp [specOnlyPoint, hi, bigM]
    · have h90 : ((List.range n_samples).map specOnlyPoint.y).sum = 90 := by
        have h := sum_indicator_range 90 100 (by norm_num)
        simpa [specOnlyPoint, n_samples] using h
      rw [h90]
    · intro hf
      have : (1 : ℚ) ≤ 0 := hf.1.2.1
      norm_num at this

/-- Witness for C10 at the all-ones sample stream and the assignment
x1 = 1, x2 = 0, all y equal to 1. -/
theorem ws5_stochastic_tighter_witness :
    stochFeasible onesSample allOnes ∧
    ((List.range n_samples).filter
      (fun i => decide (allOnes.y i = 0))).length ≤ 1 ∧
    1 ≤ allOnes.x1 := by
  have hf : stochFeasible onesSample allOnes := by
    refine ⟨⟨by norm_num [allOnes], by norm_num [allOnes], by norm_num [allOnes]⟩,
      ?_, ?_, ?_⟩
    · intro i _
      right
      rfl
    · intro i _
      norm_num [allOnes, onesSample, bigM]
    · have h100 : (List.range n_samples).map allOnes.y
          = List.replicate n_samples 1 := by
        simp [allOnes]
      rw [h100, List.sum_replicate]
      norm_num [n_samples]
  have h := ws5_stochastic_tighter onesSample allOnes hf
  exact ⟨hf, h.1.2.1, h.1.2.2.1⟩

end SCWorkshop
